import Mathlib

/-!
Verification of the instance-lifecycle orchestrator of the
opengrok-navigator repository (the shell script `manage-opengrok-test.sh`).
The script manages named, VM-backed test instances of a source-indexing
service: it creates, restarts, stops and destroys instances, keeps one
durable record per instance under a state directory, checks requested
ports against running instances, classifies a codebase argument into
demo / local / git, and polls a health URL after provisioning.

The embedding below translates the script's functions into pure Lean
functions over an explicit `World` (state-store records, live VM status,
filesystem facts, the readiness-probe oracle).  Observable actions of a
`start` run are recorded as an `Event` trace so ordering properties of
the provisioning pipeline can be stated.  The script runs under
`set -euo pipefail`; `die` exits the process with status 1, and a
non-zero return status of a `command_*` function aborts `main` with that
status, so a command's final status is the process exit code.
-/

/-- Live status of a VM as observed through `multipass info`:
`running` when the info output contains "Running", `stopped` when it
contains "Stopped", `unknown` when `multipass info` fails (no such VM). -/
inductive VMStatus
  | running
  | stopped
  | unknown
deriving DecidableEq, Repr

/-- Codebase classification, `codebase_type` in the saved record. -/
inductive CodebaseType
  | demo
  | local
  | git
deriving DecidableEq, Repr

/-- Errors on which the script calls `die` (process exit 1). -/
inductive Err
  | portConflict (owner : String)
  | invalidCodebase (arg : String)
  | notFound (name : String)
  | backend (msg : String)
deriving DecidableEq, Repr

/-- Result of a command: `success`, or `failure e` when the script `die`s. -/
inductive CmdResult
  | success
  | failure (e : Err)
deriving DecidableEq, Repr

/-- Observable steps of a `start` run, in the order the script performs
them.  `portCheck` is `check_port_available`; `ensureCache` is
`ensure_cache`; `vmCreate` is `multipass launch`; `transferScripts` and
`transferDeps` are the script/dependency transfers; `materializeCodebase`
is the source-code transfer or git clone into the VM; `install` is the
remote `install-opengrok.sh` exec; `saveState` is `save_instance_state`;
`probeWait` is `wait_for_opengrok`; `vmStart` is `multipass start` on the
restart path; `warnNotReady` is the readiness-timeout warning;
`demoCleanup` is the `rm -rf` of the generated demo tree. -/
inductive Event
  | portCheck
  | ensureCache
  | vmCreate
  | transferScripts
  | transferDeps
  | materializeCodebase
  | install
  | saveState
  | probeWait
  | vmStart
  | warnNotReady
  | demoCleanup
deriving DecidableEq, Repr

/-- One persisted instance record, the fields of `config.json` written by
`save_instance_state`. -/
structure Record where
  name : String
  vm_name : String
  codebase_type : CodebaseType
  codebase_path : String
  port : Nat
  memory : String
  disk : String
  cpus : Nat
  ubuntu_version : String
  created : String
  git_depth : String
  git_branch : String
deriving DecidableEq, Repr

/-- The world a script invocation runs in: the state-store records (one
per directory under `$STATE_DIR`), the live VM status per VM name, the
host filesystem's directory predicate, the working directory, the value
`mktemp -d` returns, the `date -u` timestamp, the readiness oracle
(`probe k` is whether the k-th curl attempt gets a 2xx), indexed from 0. -/
structure World where
  records : List Record
  vmStatus : String → VMStatus
  isDir : String → Bool
  cwd : String
  tmpDir : String
  now : String
  probe : Nat → Bool

/-- Options of the `start` verb with the script's default values. -/
structure StartOpts where
  memory : String := "4G"
  disk : String := "20G"
  cpus : Nat := 2
  port : Nat := 8080
  ubuntu : String := "22.04"
  noCache : Bool := false
  git_depth : String := ""
  git_branch : String := ""

/-- Models `get_vm_name`: `echo "opengrok-test-$1"`. -/
def get_vm_name (n : String) : String := "opengrok-test-" ++ n

/-- Whether a record for `name` exists, modelling `[ -d "$STATE_DIR/$name" ]`. -/
def record_exists (w : World) (name : String) : Bool :=
  w.records.any (fun r => r.name == name)

/-- Point update of the live VM-status map. -/
def set_vm (w : World) (vm : String) (s : VMStatus) : World :=
  { w with vmStatus := fun v => if v == vm then s else w.vmStatus v }

/-- Models `check_port_available`: scan every record; the first record
with the requested port, a different name, and a VM observed Running is
the conflict owner (`die "Port ... already used by running instance"`);
`none` means the check passes. -/
def check_port_available (w : World) (port : Nat) (name : String) : Option String :=
  (w.records.find? (fun r =>
    r.port == port && r.name != name
      && w.vmStatus (get_vm_name r.name) == VMStatus.running)).map Record.name

/-- Whether a path is absolute (begins with a slash). -/
def is_absolute (p : String) : Bool :=
  p.data.headD ' ' == '/'

/-- Models `"$(cd "$codebase" && pwd)"` for an existing directory: an
absolute argument resolves to itself, a relative one to the working
directory joined with it (symlink/`..` normalisation is out of scope of
the embedding; arguments here are plain paths). -/
def resolve_dir (cwd p : String) : String :=
  if is_absolute p then p else cwd ++ "/" ++ p

/-- Trailing slashes removed, as `basename` does before splitting. -/
def dropTrailingSlashes (l : List Char) : List Char :=
  (l.reverse.dropWhile (fun c => c == '/')).reverse

/-- Characters after the last slash. -/
def lastComponent (l : List Char) : List Char :=
  (l.reverse.takeWhile (fun c => c != '/')).reverse

/-- Models `basename "$p"`: strip trailing slashes, keep the last path
component; an all-slash path gives "/", the empty string stays empty. -/
def basename (p : String) : String :=
  if p == "" then ""
  else
    let q := dropTrailingSlashes p.data
    if q == [] then "/" else String.mk (lastComponent q)

/-- Whether the first character list is a prefix of the second. -/
def prefix_chars : List Char → List Char → Bool
  | [], _ => true
  | _ :: _, [] => false
  | c :: cs, d :: ds => c == d && prefix_chars cs ds

/-- Whether `suf` is a suffix of `s`, on the underlying characters. -/
def ends_with_chars (s suf : String) : Bool :=
  prefix_chars suf.data.reverse s.data.reverse

/-- Models `basename "$p" suf`: the base name with the suffix removed,
unless the suffix is the entire base name (coreutils behaviour). -/
def basename_suffix (p suf : String) : String :=
  let b := basename p
  if b != suf && ends_with_chars b suf
  then String.mk (b.data.take (b.data.length - suf.data.length))
  else b

/-- Models the pattern `^(https?://|git@|ssh://)` deciding the git case. -/
def is_remote_url (s : String) : Bool :=
  prefix_chars "http://".data s.data || prefix_chars "https://".data s.data
    || prefix_chars "git@".data s.data || prefix_chars "ssh://".data s.data

/-- Content of `include/utils.h` of the generated demo codebase. -/
def demo_utils_h : String :=
  "#ifndef UTILS_H\n#define UTILS_H\n\nint string_length(const char* str);\nvoid print_message(const char* msg);\n\n#endif\n"

/-- Content of `src/utils.c` of the generated demo codebase. -/
def demo_utils_c : String :=
  "#include <stdio.h>\n#include <string.h>\n#include \"../include/utils.h\"\n\nint string_length(const char* str) \x7b\n    return strlen(str);\n\x7d\n\nvoid print_message(const char* msg) \x7b\n    printf(\"%s\\n\", msg);\n\x7d\n"

/-- Content of `src/main.c` of the generated demo codebase. -/
def demo_main_c : String :=
  "#include <stdio.h>\n#include \"../include/utils.h\"\n\nint main() \x7b\n    const char* message = \"Hello, OpenGrok!\";\n    print_message(message);\n    printf(\"Message length: %d\\n\", string_length(message));\n    return 0;\n\x7d\n"

/-- Content of `src/server.py` of the generated demo codebase. -/
def demo_server_py : String :=
  "from client import Client\n\nclass Server:\n    def __init__(self, port):\n        self.port = port\n        self.clients = []\n\n    def add_client(self, client):\n        self.clients.append(client)\n\n    def broadcast(self, message):\n        for client in self.clients:\n            client.send(message)\n\n    def start(self):\n        print(f\"Server started on port \x7bself.port\x7d\")\n"

/-- Content of `src/client.py` of the generated demo codebase. -/
def demo_client_py : String :=
  "class Client:\n    def __init__(self, name):\n        self.name = name\n\n    def send(self, message):\n        print(f\"\x7bself.name\x7d received: \x7bmessage\x7d\")\n\n    def connect(self, server):\n        server.add_client(self)\n"

/-- Content of `src/helpers.js` of the generated demo codebase. -/
def demo_helpers_js : String :=
  "export function formatMessage(msg) \x7b\n    return \x60[INFO] $\x7bmsg\x7d\x60;\n\x7d\n\nexport function getCurrentTimestamp() \x7b\n    return new Date().toISOString();\n\x7d\n"

/-- Content of `src/app.js` of the generated demo codebase. -/
def demo_app_js : String :=
  "import \x7b formatMessage, getCurrentTimestamp \x7d from \x27./helpers.js\x27;\n\nclass Application \x7b\n    constructor(name) \x7b\n        this.name = name;\n        this.startTime = getCurrentTimestamp();\n    \x7d\n\n    log(message) \x7b\n        console.log(formatMessage(message));\n    \x7d\n\n    run() \x7b\n        this.log(\x60Application $\x7bthis.name\x7d started at $\x7bthis.startTime\x7d\x60);\n    \x7d\n\x7d\n\nconst app = new Application(\x27DemoApp\x27);\napp.run();\n"

/-- Content of `tests/test_utils.c` of the generated demo codebase. -/
def demo_test_utils_c : String :=
  "#include <assert.h>\n#include <string.h>\n#include \"../include/utils.h\"\n\nvoid test_string_length() \x7b\n    assert(string_length(\"hello\") == 5);\n    assert(string_length(\"\") == 0);\n\x7d\n\nint main() \x7b\n    test_string_length();\n    return 0;\n\x7d\n"

/-- Content of `tests/test_server.py` of the generated demo codebase. -/
def demo_test_server_py : String :=
  "import sys\nsys.path.insert(0, \x27../src\x27)\n\nfrom server import Server\nfrom client import Client\n\ndef test_server():\n    server = Server(8080)\n    client = Client(\"TestClient\")\n    client.connect(server)\n    assert len(server.clients) == 1\n    print(\"Tests passed\")\n\nif __name__ == \"__main__\":\n    test_server()\n"

/-- The relative file tree `create_demo_codebase` writes, in creation
order: path under the temporary root paired with the file's bytes. -/
def demo_files : List (String × String) :=
  [("include/utils.h", demo_utils_h),
   ("src/utils.c", demo_utils_c),
   ("src/main.c", demo_main_c),
   ("src/server.py", demo_server_py),
   ("src/client.py", demo_client_py),
   ("src/helpers.js", demo_helpers_js),
   ("src/app.js", demo_app_js),
   ("tests/test_utils.c", demo_test_utils_c),
   ("tests/test_server.py", demo_test_server_py)]

/-- Models `create_demo_codebase`: a fresh temporary directory (the
`mktemp -d` result) is populated with the fixed heredoc tree; the
function's output is the directory together with the tree it wrote. -/
def create_demo_codebase (tmp : String) : String × List (String × String) :=
  (tmp, demo_files)

/-- Classification outcome of the codebase argument of `start`. -/
structure Classified where
  ctype : CodebaseType
  source_path : String
  project_name : String
deriving DecidableEq, Repr

/-- Classification result: `ok`, or the `die "Codebase not found"` case. -/
inductive ClassifyResult
  | ok (c : Classified)
  | invalid (arg : String)
deriving DecidableEq, Repr

/-- Models the codebase dispatch in `command_start`: the empty argument
generates the demo tree at the fresh temporary directory; an existing
directory is `local` with the path resolved absolute and the project
named after its base name; a remote-URL argument is `git` with the
trailing `.git` stripped from the base name; anything else dies. -/
def classify (w : World) (codebase : String) : ClassifyResult :=
  if codebase = "" then
    .ok { ctype := .demo,
          source_path := (create_demo_codebase w.tmpDir).1,
          project_name := "demo" }
  else if w.isDir codebase = true then
    let sp := resolve_dir w.cwd codebase
    .ok { ctype := .local, source_path := sp, project_name := basename sp }
  else if is_remote_url codebase = true then
    .ok { ctype := .git, source_path := codebase,
          project_name := basename_suffix codebase ".git" }
  else .invalid codebase

/-- Maximum polling attempts of `wait_for_opengrok` (`max_attempts=60`). -/
def max_attempts : Nat := 60

/-- Seconds slept between polling attempts (`sleep 2`). -/
def interval_seconds : Nat := 2

/-- The polling loop of `wait_for_opengrok`: at each remaining-fuel step
the current attempt's curl either succeeds (return 0 at once) or the
loop sleeps `interval_seconds` and retries.  The result pairs whether a
2xx was seen with the total seconds slept. -/
def wait_go (probe : Nat → Bool) : Nat → Nat → Bool × Nat
  | _, 0 => (false, 0)
  | attempt, fuel + 1 =>
    if probe attempt then (true, 0)
    else ((wait_go probe (attempt + 1) fuel).1,
          (wait_go probe (attempt + 1) fuel).2 + interval_seconds)

/-- Models `wait_for_opengrok`: poll from attempt 0 with `max_attempts`
fuel; `true` is the script's return 0 (ready), `false` its return 1. -/
def wait_for_opengrok (probe : Nat → Bool) : Bool × Nat :=
  wait_go probe 0 max_attempts

/-- The record `save_instance_state` writes for this `start` invocation:
name, derived VM name, classification, CLI options and the current
timestamp. -/
def mk_record (name : String) (c : Classified) (o : StartOpts) (now : String) : Record :=
  { name := name
    vm_name := get_vm_name name
    codebase_type := c.ctype
    codebase_path := c.source_path
    port := o.port
    memory := o.memory
    disk := o.disk
    cpus := o.cpus
    ubuntu_version := o.ubuntu
    created := now
    git_depth := o.git_depth
    git_branch := o.git_branch }

/-- Models `save_instance_state`: `cat > "$STATE_DIR/$name/config.json"`
overwrites any record of the same name and leaves the others alone. -/
def save_instance_state (w : World) (r : Record) : World :=
  { w with records := r :: w.records.filter (fun q => q.name != r.name) }

/-- Outcome of one `start` invocation: the result, the ordered trace of
observable steps, the world afterwards, the bash return status of
`command_start` (under `set -e` a non-zero status becomes the process
exit code; `die` exits 1 directly), and the VM the run referred to. -/
structure StartResult where
  result : CmdResult
  events : List Event
  world : World
  bashStatus : Nat
  vmUsed : Option String

/-- The fresh-provisioning tail of `command_start` (reached when no
record exists, or one exists but `multipass info` fails for its VM):
port pre-check, codebase classification, cache ensuring, VM launch,
script and dependency transfer, codebase transfer or clone, remote
install, state save, readiness wait, then the demo cleanup guard.  The
final line `[ "$codebase_type" = "demo" ] && rm -rf "$source_path"`
leaves return status 1 when the type is not demo, which `set -e` turns
into process exit status 1 in `main`. -/
def fresh_provision (w : World) (name codebase : String) (o : StartOpts) : StartResult :=
  let vm := get_vm_name name
  match check_port_available w o.port name with
  | some owner =>
    { result := .failure (.portConflict owner), events := [.portCheck],
      world := w, bashStatus := 1, vmUsed := none }
  | none =>
    match classify w codebase with
    | .invalid arg =>
      { result := .failure (.invalidCodebase arg), events := [.portCheck],
        world := w, bashStatus := 1, vmUsed := none }
    | .ok c =>
      let w1 := set_vm w vm .running
      let w2 := save_instance_state w1 (mk_record name c o w.now)
      let ready := (wait_for_opengrok w.probe).1
      { result := .success
        events :=
          [.portCheck, .ensureCache, .vmCreate, .transferScripts, .transferDeps,
           .materializeCodebase, .install, .saveState, .probeWait]
          ++ (if ready then [] else [.warnNotReady])
          ++ (if c.ctype = .demo then [.demoCleanup] else [])
        world := w2
        bashStatus := if c.ctype = .demo then 0 else 1
        vmUsed := some vm }

/-- Models `command_start`: when the record directory exists and
`multipass info` reports the VM Running, return 0 at once; when the
record exists and `multipass info` merely succeeds, `multipass start`
the VM and return 0; otherwise fall through to fresh provisioning. -/
def command_start (w : World) (name codebase : String) (o : StartOpts) : StartResult :=
  let vm := get_vm_name name
  if record_exists w name then
    match w.vmStatus vm with
    | .running =>
      { result := .success, events := [], world := w, bashStatus := 0,
        vmUsed := some vm }
    | .stopped =>
      { result := .success, events := [.vmStart], world := set_vm w vm .running,
        bashStatus := 0, vmUsed := some vm }
    | .unknown => fresh_provision w name codebase o
  else fresh_provision w name codebase o

/-- Models `command_status`: "not found" with return status 1 when no
record directory exists, otherwise the live VM status with status 0. -/
def command_status (w : World) (name : String) : String × Nat :=
  if record_exists w name then
    match w.vmStatus (get_vm_name name) with
    | .running => ("running", 0)
    | .stopped => ("stopped", 0)
    | .unknown => ("unknown", 0)
  else ("not found", 1)

/-- Models `command_stop`: requires the record (`check_instance_exists`
dies otherwise); `multipass stop` fails when the VM does not exist and
the script dies, else the VM is observed Stopped afterwards. -/
def command_stop (w : World) (name : String) : CmdResult × World :=
  if record_exists w name then
    match w.vmStatus (get_vm_name name) with
    | .unknown => (.failure (.backend "Failed to stop VM"), w)
    | _ => (.success, set_vm w (get_vm_name name) .stopped)
  else (.failure (.notFound name), w)

/-- Default world for concrete runs: empty state store, no VMs, a bare
filesystem, fixed temporary directory and clock, always-ready probe. -/
def baseWorld : World :=
  { records := []
    vmStatus := fun _ => .unknown
    isDir := fun _ => false
    cwd := "/home/op"
    tmpDir := "/tmp/tmp.x1"
    now := "2026-02-03T04:05:06Z"
    probe := fun _ => true }

/-- A stored record as an earlier successful `start` would have written it. -/
def sampleRecord (name : String) (ct : CodebaseType) (path : String) (port : Nat) : Record :=
  { name := name
    vm_name := get_vm_name name
    codebase_type := ct
    codebase_path := path
    port := port
    memory := "4G"
    disk := "20G"
    cpus := 2
    ubuntu_version := "22.04"
    created := "2026-01-01T00:00:00Z"
    git_depth := ""
    git_branch := "" }

/-- World with one instance `a` whose VM is observed Running. -/
def exRunningWorld : World :=
  { baseWorld with
    records := [sampleRecord "a" .local "/code/proj" 8080]
    vmStatus := fun v => if v == "opengrok-test-a" then .running else .unknown }

/-- World with one instance `a` whose VM is observed Stopped. -/
def exStoppedWorld : World :=
  { baseWorld with
    records := [sampleRecord "a" .local "/code/proj" 8080]
    vmStatus := fun v => if v == "opengrok-test-a" then .stopped else .unknown }

/-- World with one instance `a` whose record survives but whose VM is
gone (`multipass info` fails). -/
def exVmGoneWorld : World :=
  { baseWorld with records := [sampleRecord "a" .local "/old/path" 8080] }

/-- World where running instance `a` holds port 9000 and instance `b`,
also recorded with port 9000, is Stopped. -/
def exPortHeldWorld : World :=
  { baseWorld with
    records := [sampleRecord "a" .local "/code/a" 9000,
                sampleRecord "b" .local "/code/b" 9000]
    vmStatus := fun v =>
      if v == "opengrok-test-a" then .running
      else if v == "opengrok-test-b" then .stopped else .unknown }

/-- World with an existing local directory `/code/proj` and nothing else. -/
def exLocalWorld : World :=
  { baseWorld with isDir := fun p => p == "/code/proj" }

/-- The seven pipeline steps named by the specification, in the order
the script actually performs them: port pre-check, VM create, cached
dependency transfer, codebase materialization, remote install, state
save, readiness probe. -/
def pipeline_order : List Event :=
  [.portCheck, .vmCreate, .transferDeps, .materializeCodebase, .install,
   .saveState, .probeWait]

/-- The classification `classify` produces for the empty codebase
argument: the demo tree generated at the fresh temporary directory. -/
def demo_classified (w : World) : Classified :=
  { ctype := .demo
    source_path := (create_demo_codebase w.tmpDir).1
    project_name := "demo" }

/-- World whose filesystem has one directory, reachable as relative
path `proj` from the working directory `/home/op`. -/
def exClassifyWorld : World :=
  { baseWorld with isDir := fun p => p == "proj" }

/-- C6: `start` is idempotent on a running instance — when the record
exists and the VM is observed Running, `start` performs no provisioning
step (empty event trace), writes no state (the world is unchanged),
returns success with status 0, and refers to the same derived VM name. -/
theorem running_start_idempotent (w : World) (name cb : String) (o : StartOpts)
    (hrec : record_exists w name = true)
    (hrun : w.vmStatus (get_vm_name name) = .running) :
    (command_start w name cb o).result = .success
      ∧ (command_start w name cb o).events = []
      ∧ (command_start w name cb o).world = w
      ∧ (command_start w name cb o).bashStatus = 0
      ∧ (command_start w name cb o).vmUsed = some (get_vm_name name) := by
  simp [command_start, hrec, hrun]

/-- Witness for C6 at a concrete world with instance `a` running. -/
theorem running_start_idempotent_witness :
    (command_start exRunningWorld "a" "" {}).result = .success
      ∧ (command_start exRunningWorld "a" "" {}).events = []
      ∧ (command_start exRunningWorld "a" "" {}).world = exRunningWorld
      ∧ (command_start exRunningWorld "a" "" {}).bashStatus = 0
      ∧ (command_start exRunningWorld "a" "" {}).vmUsed = some (get_vm_name "a") :=
  running_start_idempotent exRunningWorld "a" "" {} rfl rfl

/-- C10: the restart fast path performs no port-conflict check — when
the record exists and `multipass info` succeeds for its VM (Running or
Stopped), `command_start` returns success without ever reaching
`check_port_available`, so no PortConflict can be raised there. -/
theorem restart_no_port_check (w : World) (name cb : String) (o : StartOpts)
    (hrec : record_exists w name = true)
    (hvm : w.vmStatus (get_vm_name name) ≠ .unknown) :
    (command_start w name cb o).result = .success
      ∧ (command_start w name cb o).events.contains Event.portCheck = false := by
  cases hs : w.vmStatus (get_vm_name name) with
  | running => simp [command_start, hrec, hs]
  | stopped => simp [command_start, hrec, hs]
  | unknown => exact absurd hs hvm

/-- Witness for C10: restarting stopped instance `b` succeeds with no
port check although running instance `a` holds the same port 9000 (the
port check, had it run, would have named `a`). -/
theorem restart_no_port_check_witness :
    ((command_start exPortHeldWorld "b" "" { port := 9000 }).result = .success
      ∧ (command_start exPortHeldWorld "b" "" { port := 9000 }).events.contains Event.portCheck = false)
      ∧ check_port_available exPortHeldWorld 9000 "b" = some "a" :=
  ⟨restart_no_port_check exPortHeldWorld "b" "" { port := 9000 } rfl (by decide), rfl⟩

/-- C3 counterexample: with instance `a` recorded and its VM Stopped,
`start a` runs exactly `multipass start` — the event trace is
`[vmStart]`, so the readiness wait claimed by the spec never runs. -/
theorem stopped_restart_skips_probe_cex :
    (command_start exStoppedWorld "a" "" {}).result = .success
      ∧ (command_start exStoppedWorld "a" "" {}).events = [Event.vmStart]
      ∧ (command_start exStoppedWorld "a" "" {}).events.contains Event.probeWait = false :=
  ⟨rfl, rfl, rfl⟩

/-- C3 as amended: on the Stopped fast path `start` skips creation,
transfer, materialization and install, invokes only the VM Driver start
(trace `[vmStart]`, after which the VM is Running), reports success
immediately without any readiness wait, and neither re-validates nor
re-applies the original parameters (the stored records are untouched). -/
theorem stopped_restart_fast_path (w : World) (name cb : String) (o : StartOpts)
    (hrec : record_exists w name = true)
    (hstop : w.vmStatus (get_vm_name name) = .stopped) :
    (command_start w name cb o).result = .success
      ∧ (command_start w name cb o).events = [Event.vmStart]
      ∧ (command_start w name cb o).world.records = w.records
      ∧ (command_start w name cb o).world.vmStatus (get_vm_name name) = .running := by
  simp [command_start, hrec, hstop, set_vm]

/-- Witness for the amended C3 at a concrete stopped instance. -/
theorem stopped_restart_fast_path_witness :
    (command_start exStoppedWorld "a" "" {}).result = .success
      ∧ (command_start exStoppedWorld "a" "" {}).events = [Event.vmStart]
      ∧ (command_start exStoppedWorld "a" "" {}).world.records = exStoppedWorld.records
      ∧ (command_start exStoppedWorld "a" "" {}).world.vmStatus (get_vm_name "a") = .running :=
  stopped_restart_fast_path exStoppedWorld "a" "" {} rfl rfl

/-- C5 counterexample: instance `a` was provisioned from local path
`/old/path`, its VM has since vanished; `start a` (no codebase) falls
through to full provisioning and rewrites the record as a demo instance,
so the stored record does not survive `start` when the VM is gone. -/
theorem start_rewrites_record_when_vm_gone_cex :
    ((command_start exVmGoneWorld "a" "" {}).world.records.find?
        (fun r => r.name == "a")).map Record.codebase_type = some CodebaseType.demo
      ∧ (exVmGoneWorld.records.find?
        (fun r => r.name == "a")).map Record.codebase_type = some CodebaseType.local
      ∧ (command_start exVmGoneWorld "a" "" {}).world.records ≠ exVmGoneWorld.records :=
  ⟨rfl, rfl, by decide⟩

/-- C5 as amended: as long as the backing VM still exists (observed
Running or Stopped) `start` on an existing record never rewrites it —
the stored records, hence `codebase_type` and `codebase_path`, are
bytewise unchanged; when the VM no longer exists `start` re-provisions
and overwrites the record with the new invocation's parameters. -/
theorem record_preserved_when_vm_exists (w : World) (name cb : String) (o : StartOpts)
    (hrec : record_exists w name = true)
    (hvm : w.vmStatus (get_vm_name name) ≠ .unknown) :
    (command_start w name cb o).world.records = w.records := by
  cases hs : w.vmStatus (get_vm_name name) with
  | running => simp [command_start, hrec, hs]
  | stopped => simp [command_start, hrec, hs, set_vm]
  | unknown => exact absurd hs hvm

/-- Witness for the amended C5: a stop/start cycle leaves the record
list of instance `a` unchanged. -/
theorem record_preserved_when_vm_exists_witness :
    (command_start exStoppedWorld "a" "" {}).world.records = exStoppedWorld.records :=
  record_preserved_when_vm_exists exStoppedWorld "a" "" {} rfl (by decide)

/-- C9: demo-codebase generation is deterministic — any two invocations
produce the same relative file tree with byte-identical contents; only
the temporary root (the first component) follows the `mktemp` result. -/
theorem demo_codebase_deterministic (t1 t2 : String) :
    (create_demo_codebase t1).2 = (create_demo_codebase t2).2
      ∧ (create_demo_codebase t1).1 = t1 :=
  ⟨rfl, rfl⟩

/-- C1 counterexample: a fresh demo `start` yields the full concrete
step trace, in which `saveState` (index 7) strictly precedes `probeWait`
(index 8) — the record is saved before, not after, the readiness probe,
refuting the claimed step order at this input. -/
theorem fresh_start_save_before_probe_cex :
    (command_start baseWorld "d" "" {}).events
      = [Event.portCheck, Event.ensureCache, Event.vmCreate, Event.transferScripts,
         Event.transferDeps, Event.materializeCodebase, Event.install, Event.saveState,
         Event.probeWait, Event.demoCleanup]
      ∧ (command_start baseWorld "d" "" {}).events.indexOf Event.saveState
          < (command_start baseWorld "d" "" {}).events.indexOf Event.probeWait :=
  ⟨rfl, by decide⟩

/-- C1 as amended: every fresh `start` (no existing record, port check
passing, codebase classifying) performs the pipeline steps in exactly
the order: port pre-check, VM create, cached-dependency transfer,
codebase materialization, remote install, then the State Store save,
and only after the save the readiness probe. -/
theorem fresh_start_pipeline_order (w : World) (name codebase : String) (o : StartOpts)
    (c : Classified)
    (hrec : record_exists w name = false)
    (hport : check_port_available w o.port name = none)
    (hcls : classify w codebase = .ok c) :
    (command_start w name codebase o).events.filter
        (fun e => pipeline_order.contains e) = pipeline_order := by
  have h1 : command_start w name codebase o = fresh_provision w name codebase o := by
    simp [command_start, hrec]
  rw [h1]
  simp only [fresh_provision, hport, hcls]
  cases hr : (wait_for_opengrok w.probe).1 <;> cases hct : c.ctype <;>
    simp [hr, hct, pipeline_order]

/-- Witness for the amended C1 at a fresh demo start. -/
theorem fresh_start_pipeline_order_witness :
    (command_start baseWorld "d" "" {}).events.filter
        (fun e => pipeline_order.contains e) = pipeline_order :=
  fresh_start_pipeline_order baseWorld "d" "" {}
    { ctype := .demo, source_path := "/tmp/tmp.x1", project_name := "demo" }
    rfl rfl rfl

/-- C2, evaluated at the failing input: a fresh `start t /code/proj`
with an existing local directory provisions successfully (`result`
success, the trace ends in the install/save/probe tail) yet the process
exit status is 1, because the final line
`[ "$codebase_type" = "demo" ] && rm -rf "$source_path"` of
`command_start` leaves return status 1 for a non-demo codebase and
`set -e` aborts `main` with it.  A demo start exits 0 and `status` on a
never-started name prints "not found" with exit 1, as claimed. -/
theorem local_start_exit_code_bug :
    (command_start exLocalWorld "t" "/code/proj" {}).result = .success
      ∧ (command_start exLocalWorld "t" "/code/proj" {}).bashStatus = 1
      ∧ (command_start baseWorld "d" "" {}).result = .success
      ∧ (command_start baseWorld "d" "" {}).bashStatus = 0
      ∧ command_status baseWorld "ghost" = ("not found", 1) :=
  ⟨rfl, rfl, rfl, rfl, rfl⟩

/-- C4: the port-availability check reports a conflict exactly when some
stored record of a different name holds the requested port with its VM
observed Running, and the named owner is such a record; Stopped or
Unknown owners of the port never block it. -/
theorem port_check_conflict_iff (w : World) (port : Nat) (name : String) :
    ((check_port_available w port name).isSome = true ↔
      ∃ r ∈ w.records, r.port = port ∧ r.name ≠ name
        ∧ w.vmStatus (get_vm_name r.name) = .running)
  ∧ (∀ owner, check_port_available w port name = some owner →
      ∃ r ∈ w.records, r.name = owner ∧ r.port = port ∧ r.name ≠ name
        ∧ w.vmStatus (get_vm_name r.name) = .running) := by
  have hpred : ∀ r : Record,
      (r.port == port && r.name != name
        && w.vmStatus (get_vm_name r.name) == VMStatus.running) = true
      ↔ (r.port = port ∧ r.name ≠ name
          ∧ w.vmStatus (get_vm_name r.name) = .running) := by
    intro r
    simp [Bool.and_eq_true, and_assoc]
  constructor
  · unfold check_port_available
    rw [Option.isSome_map', List.find?_isSome]
    constructor
    · rintro ⟨r, hm, hp⟩
      exact ⟨r, hm, (hpred r).1 hp⟩
    · rintro ⟨r, hm, h1, h2, h3⟩
      exact ⟨r, hm, (hpred r).2 ⟨h1, h2, h3⟩⟩
  · intro owner h
    unfold check_port_available at h
    rcases Option.map_eq_some'.1 h with ⟨r, hfind, hname⟩
    have hp := List.find?_some hfind
    rcases (hpred r).1 hp with ⟨h1, h2, h3⟩
    exact ⟨r, List.mem_of_find?_eq_some hfind, hname, h1, h2, h3⟩

/-- Witness for C4: in the world where running instance `a` owns port
9000, checking port 9000 for `b` names `a` as a running conflicting
record. -/
theorem port_check_conflict_iff_witness :
    ∃ r ∈ exPortHeldWorld.records, r.name = "a" ∧ r.port = 9000 ∧ r.name ≠ "b"
      ∧ exPortHeldWorld.vmStatus (get_vm_name r.name) = .running :=
  (port_check_conflict_iff exPortHeldWorld 9000 "b").2 "a" rfl

/-- The polling loop reports ready exactly when some attempt within its
fuel budget gets a 2xx. -/
theorem wait_go_ready_iff (probe : Nat → Bool) :
    ∀ fuel a, (wait_go probe a fuel).1 = true
      ↔ ∃ k, k < fuel ∧ probe (a + k) = true := by
  intro fuel
  induction fuel with
  | zero => intro a; simp [wait_go]
  | succ n ih =>
    intro a
    rw [wait_go]
    by_cases hp : probe a = true
    · rw [if_pos hp]
      simp only [true_iff]
      exact ⟨0, Nat.succ_pos n, by simpa using hp⟩
    · rw [if_neg hp]
      simp only []
      rw [ih (a + 1)]
      constructor
      · rintro ⟨k, hk, hpk⟩
        refine ⟨k + 1, by omega, ?_⟩
        have hadd : a + 1 + k = a + (k + 1) := by omega
        rwa [hadd] at hpk
      · rintro ⟨k, hk, hpk⟩
        cases k with
        | zero => exact absurd (by simpa using hpk) hp
        | succ j =>
          refine ⟨j, by omega, ?_⟩
          have hadd : a + 1 + j = a + (j + 1) := by omega
          rw [hadd]
          exact hpk

/-- When no attempt within the fuel budget succeeds, the loop exhausts
all attempts, sleeping the interval after each one. -/
theorem wait_go_timeout (probe : Nat → Bool) :
    ∀ fuel a, (∀ k, k < fuel → probe (a + k) = false) →
      wait_go probe a fuel = (false, fuel * interval_seconds) := by
  intro fuel
  induction fuel with
  | zero => intro a _; simp [wait_go]
  | succ n ih =>
    intro a h
    have h0 : probe a = false := by simpa using h 0 (Nat.succ_pos n)
    rw [wait_go, if_neg (by simp [h0])]
    have hr : wait_go probe (a + 1) n = (false, n * interval_seconds) := by
      apply ih
      intro k hk
      have hadd : a + 1 + k = a + (k + 1) := by omega
      rw [hadd]
      exact h (k + 1) (by omega)
    rw [hr]
    have harith : n * interval_seconds + interval_seconds
        = (n + 1) * interval_seconds := by ring
    rw [harith]

/-- When attempt `k` is the first to succeed within the budget, the loop
stops there having slept the interval `k` times. -/
theorem wait_go_first (probe : Nat → Bool) :
    ∀ fuel a k, k < fuel → probe (a + k) = true →
      (∀ j, j < k → probe (a + j) = false) →
      wait_go probe a fuel = (true, k * interval_seconds) := by
  intro fuel
  induction fuel with
  | zero => intro a k hk _ _; exact absurd hk (Nat.not_lt_zero k)
  | succ n ih =>
    intro a k hk hpk hmin
    cases k with
    | zero =>
      have hp : probe a = true := by simpa using hpk
      rw [wait_go, if_pos hp]
      simp
    | succ j =>
      have h0 : probe a = false := by simpa using hmin 0 (Nat.succ_pos j)
      rw [wait_go, if_neg (by simp [h0])]
      have hr : wait_go probe (a + 1) n = (true, j * interval_seconds) := by
        apply ih (a + 1) j (by omega)
        · have hadd : a + 1 + j = a + (j + 1) := by omega
          rw [hadd]
          exact hpk
        · intro i hi
          have hadd : a + 1 + i = a + (i + 1) := by omega
          rw [hadd]
          exact hmin (i + 1) (by omega)
      rw [hr]
      have harith : j * interval_seconds + interval_seconds
          = (j + 1) * interval_seconds := by ring
      rw [harith]

/-- C7: the readiness probe returns ready exactly when a 2xx arrives
within 60 attempts, stops at the first 2xx having slept 2 seconds per
failed attempt, times out as `(false, 120)` after 60 failed attempts,
and a timeout is not a pipeline failure: a fresh demo `start` whose
probe never succeeds still returns success with the record saved and
the demo cleanup performed, surfacing only the warning. -/
theorem readiness_probe_bounded_and_nonfatal :
    (∀ probe : Nat → Bool,
       ((wait_for_opengrok probe).1 = true ↔ ∃ k, k < max_attempts ∧ probe k = true))
  ∧ (∀ probe : Nat → Bool, ∀ k, k < max_attempts → probe k = true →
       (∀ j, j < k → probe j = false) →
       wait_for_opengrok probe = (true, k * interval_seconds))
  ∧ (∀ probe : Nat → Bool, (∀ k, k < max_attempts → probe k = false) →
       wait_for_opengrok probe = (false, max_attempts * interval_seconds))
  ∧ (∀ (w : World) (name : String) (o : StartOpts),
       record_exists w name = false →
       check_port_available w o.port name = none →
       (wait_for_opengrok w.probe).1 = false →
         (command_start w name "" o).result = .success
           ∧ Event.saveState ∈ (command_start w name "" o).events
           ∧ Event.warnNotReady ∈ (command_start w name "" o).events
           ∧ Event.demoCleanup ∈ (command_start w name "" o).events) := by
  refine ⟨?_, ?_, ?_, ?_⟩
  · intro probe
    rw [wait_for_opengrok, wait_go_ready_iff]
    simp
  · intro probe k hk hp hmin
    exact wait_go_first probe max_attempts 0 k hk (by simpa using hp)
      (fun j hj => by simpa using hmin j hj)
  · intro probe h
    exact wait_go_timeout probe max_attempts 0 (fun k hk => by simpa using h k hk)
  · intro w name o hrec hport hready
    have h1 : command_start w name "" o = fresh_provision w name "" o := by
      simp [command_start, hrec]
    have hcls : classify w "" = .ok (demo_classified w) := by
      simp [classify, demo_classified]
    rw [h1]
    simp [fresh_provision, hport, hcls, hready, demo_classified]

/-- Witness for C7: with a probe that never succeeds, the wait times out
as `(false, 120)` and a concrete fresh demo start still succeeds with
save, warning and cleanup in its trace. -/
theorem readiness_probe_bounded_and_nonfatal_witness :
    wait_for_opengrok (fun _ => false) = (false, max_attempts * interval_seconds)
      ∧ ((command_start { baseWorld with probe := fun _ => false } "d" "" {}).result = .success
           ∧ Event.saveState ∈ (command_start { baseWorld with probe := fun _ => false } "d" "" {}).events
           ∧ Event.warnNotReady ∈ (command_start { baseWorld with probe := fun _ => false } "d" "" {}).events
           ∧ Event.demoCleanup ∈ (command_start { baseWorld with probe := fun _ => false } "d" "" {}).events) :=
  ⟨readiness_probe_bounded_and_nonfatal.2.2.1 (fun _ => false) (fun _ _ => rfl),
   readiness_probe_bounded_and_nonfatal.2.2.2
     { baseWorld with probe := fun _ => false } "d" {} rfl rfl (by decide)⟩

/-- Prepending to a string keeps an absolute string absolute. -/
theorem is_absolute_append (a b : String) (h : is_absolute a = true) :
    is_absolute (a ++ b) = true := by
  unfold is_absolute at h ⊢
  rw [String.data_append]
  cases ha : a.data with
  | nil => rw [ha] at h; simp at h
  | cons c t => rw [ha] at h; simpa using h

/-- C8: classification of a non-empty codebase argument is exhaustive
over its three cases — an existing directory is `local` with the path
resolved to an absolute path and the project named by its base name; a
remote-URL argument is `git` with the trailing `.git` stripped from the
base name; any other non-empty argument fails as an invalid codebase. -/
theorem classify_cases (w : World) (cb : String)
    (hne : cb ≠ "") (habs : is_absolute w.cwd = true) :
    (w.isDir cb = true →
       classify w cb = .ok { ctype := .local, source_path := resolve_dir w.cwd cb, project_name := basename (resolve_dir w.cwd cb) }
         ∧ is_absolute (resolve_dir w.cwd cb) = true)
  ∧ (w.isDir cb = false → is_remote_url cb = true →
       classify w cb = .ok { ctype := .git, source_path := cb, project_name := basename_suffix cb ".git" })
  ∧ (w.isDir cb = false → is_remote_url cb = false →
       classify w cb = .invalid cb) := by
  refine ⟨?_, ?_, ?_⟩
  · intro hd
    constructor
    · simp [classify, hne, hd]
    · unfold resolve_dir
      by_cases hp : is_absolute cb = true
      · rw [if_pos hp]
        exact hp
      · rw [if_neg hp]
        exact is_absolute_append (w.cwd ++ "/") cb (is_absolute_append w.cwd "/" habs)
  · intro hd hurl
    simp [classify, hne, hd, hurl]
  · intro hd hurl
    simp [classify, hne, hd, hurl]

/-- Witness for C8: relative directory `proj` classifies local with the
absolute path `/home/op/proj`; a GitHub URL classifies git with project
name `repo`; a missing path is rejected. -/
theorem classify_cases_witness :
    (classify exClassifyWorld "proj" = .ok { ctype := .local, source_path := resolve_dir exClassifyWorld.cwd "proj", project_name := basename (resolve_dir exClassifyWorld.cwd "proj") }
       ∧ is_absolute (resolve_dir exClassifyWorld.cwd "proj") = true)
      ∧ classify exClassifyWorld "https://github.com/u/repo.git" = .ok { ctype := .git, source_path := "https://github.com/u/repo.git", project_name := basename_suffix "https://github.com/u/repo.git" ".git" }
      ∧ classify exClassifyWorld "missing-dir" = .invalid "missing-dir" :=
  ⟨(classify_cases exClassifyWorld "proj" (by decide) rfl).1 rfl,
   (classify_cases exClassifyWorld "https://github.com/u/repo.git" (by decide) rfl).2.1 rfl (by decide),
   (classify_cases exClassifyWorld "missing-dir" (by decide) rfl).2.2 rfl (by decide)⟩
